import Mathlib

/-
Verification of the go-reconnectwifi utility: a shallow embedding of its
parsing and polling logic, translated from the Go sources (src/main.go and
the wifi_reconnect_slog.go program embedded in src/README.md), together
with theorems settling the specification claims.

Go strings are modelled as lists of characters; the external `netsh`
process is modelled by records carrying the captured stdout, stderr and
the error outcome of a run, so that every parsing function is a pure
function of those captures.  Error message formatting (Go's fmt.Errorf
wrapping) is modelled only up to the data it carries.
-/

namespace ReconnectWifi

/-- A Go string, modelled as its sequence of characters. -/
abbrev GoStr := List Char

/-- The whitespace characters recognized by Go's unicode.IsSpace for the
Latin-1 range, which is what strings.TrimSpace trims. -/
def isSpaceChar (c : Char) : Bool :=
  c = ' ' || c = '\t' || c = '\n' || c = '\x0b' || c = '\x0c' || c = '\r' ||
    c = '\u0085' || c = '\u00A0'

/-- Go strings.TrimSpace: drop whitespace from both ends. -/
def trimSpace (s : GoStr) : GoStr :=
  ((s.dropWhile isSpaceChar).reverse.dropWhile isSpaceChar).reverse

/-- Go strings.HasPrefix s p. -/
def startsWithG (s p : GoStr) : Bool :=
  p.isPrefixOf s

/-- Go strings.Contains s sub. -/
def containsG : GoStr → GoStr → Bool
  | [], sub => sub.isEmpty
  | c :: rest, sub => sub.isPrefixOf (c :: rest) || containsG rest sub

/-- Go strings.SplitN s ":" 2: `some (before, after)` splits around the
first colon; `none` models the length-1 result when no colon occurs
(the Go code only acts when the split has two parts). -/
def splitN2 : GoStr → Option (GoStr × GoStr)
  | [] => none
  | c :: rest =>
    if c = ':' then some ([], rest)
    else (splitN2 rest).map (fun p => (c :: p.1, p.2))

/-- Go strings.Split s sep for a one-character separator (the code only
splits on a newline).  Always returns at least one piece. -/
def splitOnChar (c : Char) : GoStr → List GoStr
  | [] => [[]]
  | x :: xs =>
    match splitOnChar c xs with
    | [] => [[]]
    | h :: t => if x = c then [] :: h :: t else (x :: h) :: t

/-- Join lines with newline separators; the inverse of splitting used to
build concrete command outputs. -/
def joinLines : List GoStr → GoStr
  | [] => []
  | [l] => l
  | l :: l2 :: rest => l ++ '\n' :: joinLines (l2 :: rest)

/-- Interface block label recognized by isConnected, src/main.go line 105. -/
def nameLabel : GoStr := ("名称").toList

/-- English interface label additionally recognized by getWlanInterface,
src/main.go line 64. -/
def nameLabelEn : GoStr := ("Name").toList

/-- SSID label in the status output, src/main.go line 120. -/
def ssidKeyword : GoStr := ("SSID").toList

/-- State label in the status output, src/main.go line 126. -/
def stateKeyword : GoStr := ("状态").toList

/-- The recognized connected state token, src/main.go line 132. -/
def connectedToken : GoStr := ("已连接").toList

/-- The marker that excludes a line as an SSID source, src/main.go
line 120. -/
def apBssidMarker : GoStr := ("AP BSSID").toList

/-- List-entry SSID label in the scan output (trailing blank included),
src/main.go line 205. -/
def scanSsidKeyword : GoStr := ("SSID ").toList

/-- Chinese no-networks-visible stderr phrasing, src/main.go line 166. -/
def noNetworksZh : GoStr := ("没有无线网络可见").toList

/-- English no-networks-visible stderr phrasing, src/main.go line 166. -/
def noNetworksEn : GoStr := ("No wireless networks are currently visible").toList

/-- The Go error text compared against in isConnected, src/main.go line 93. -/
def exitStatus1Msg : GoStr := ("exit status 1").toList

/-- The substituted diagnostic of src/main.go line 94. -/
def wlanServiceHint : GoStr :=
  ("netsh wlan show interfaces returned exit status 1 (可能是WLAN AutoConfig服务未运行, 或Wi-Fi适配器被禁用/不存在)").toList

/-- The captured result of one exec.Command run: stdout, stderr and the
error returned by cmd.Run (none means exit code zero). -/
structure ExecResult where
  stdout : GoStr
  stderr : GoStr
  err : Option GoStr
deriving DecidableEq

/-- Errors produced by the Go functions (message formatting is modelled
only up to the data carried). -/
inductive GoError where
  | cmdFailed (errText : GoStr) (stderr : GoStr)
  | interfaceNotDetected
deriving DecidableEq

deriving instance DecidableEq for Except

/-- A successful command run with the given stdout and empty stderr. -/
def okOut (stdout : GoStr) : ExecResult := ⟨stdout, [], none⟩

/-- The line scan of getWlanInterface, src/main.go lines 62-73: the first
name-labelled line (Chinese or English label) with a nonempty trimmed
value wins. -/
def getWlanInterfaceLoop : List GoStr → Option GoStr
  | [] => none
  | line :: rest =>
    if startsWithG (trimSpace line) nameLabel || startsWithG (trimSpace line) nameLabelEn then
      match splitN2 (trimSpace line) with
      | some p =>
        if trimSpace p.2 ≠ [] then some (trimSpace p.2)
        else getWlanInterfaceLoop rest
      | none => getWlanInterfaceLoop rest
    else getWlanInterfaceLoop rest

/-- getWlanInterface, src/main.go lines 45-78, over the captured run of
netsh wlan show interfaces. -/
def getWlanInterface (r : ExecResult) : Except GoError GoStr :=
  match r.err with
  | some m => Except.error (GoError.cmdFailed m r.stderr)
  | none =>
    match getWlanInterfaceLoop (splitOnChar '\n' r.stdout) with
    | some n => Except.ok n
    | none => Except.error GoError.interfaceNotDetected

/-- Parser state of isConnected: whether we are inside the target
interface block and the SSID / state values parsed for it so far. -/
structure ConnSt where
  inBlock : Bool
  pSSID : GoStr
  pState : GoStr
deriving DecidableEq

/-- Handling of a name-labelled line in isConnected, src/main.go
lines 105-118 (t is the trimmed line). -/
def nameLineStep (iface : GoStr) (st : ConnSt) (t : GoStr) : ConnSt :=
  match splitN2 t with
  | some p =>
    if trimSpace p.2 = iface then ⟨true, [], []⟩
    else { st with inBlock := false }
  | none => st

/-- Handling of a line inside the target block in isConnected,
src/main.go lines 119-138: possibly record an SSID value (unless the
line carries the AP BSSID marker), possibly record a state value, then
judge.  `some b` models an early return of b. -/
def blockLineStep (target : GoStr) (st : ConnSt) (t : GoStr) : ConnSt × Option Bool :=
  let st1 :=
    if startsWithG t ssidKeyword && !containsG t apBssidMarker then
      match splitN2 t with
      | some p => { st with pSSID := trimSpace p.2 }
      | none => st
    else st
  let st2 :=
    if startsWithG t stateKeyword then
      match splitN2 t with
      | some p => { st1 with pState := trimSpace p.2 }
      | none => st1
    else st1
  if st2.pSSID = target ∧ st2.pState = connectedToken then (st2, some true)
  else if st2.pSSID = target ∧ st2.pState ≠ [] ∧ st2.pState ≠ connectedToken then
    (st2, some false)
  else (st2, none)

/-- The line loop of isConnected, src/main.go lines 103-140. -/
def isConnLoop (target iface : GoStr) : ConnSt → List GoStr → Bool
  | _, [] => false
  | st, line :: rest =>
    if startsWithG (trimSpace line) nameLabel then
      isConnLoop target iface (nameLineStep iface st (trimSpace line)) rest
    else if st.inBlock then
      match blockLineStep target st (trimSpace line) with
      | (_, some r) => r
      | (st2, none) => isConnLoop target iface st2 rest
    else
      isConnLoop target iface st rest

/-- The stderr substitution of src/main.go lines 92-95. -/
def isConnectedErrText (m stderr : GoStr) : GoStr :=
  if stderr = [] ∧ m = exitStatus1Msg then wlanServiceHint else stderr

/-- isConnected, src/main.go lines 80-141, over the captured run of
netsh wlan show interfaces. -/
def isConnected (target iface : GoStr) (r : ExecResult) : Except GoError Bool :=
  match r.err with
  | some m => Except.error (GoError.cmdFailed m (isConnectedErrText m r.stderr))
  | none => Except.ok (isConnLoop target iface ⟨false, [], []⟩ (splitOnChar '\n' r.stdout))

/-- The scan-output line loop of isNetworkAvailable, src/main.go
lines 203-219. -/
def scanLoop (target : GoStr) : List GoStr → Bool
  | [] => false
  | line :: rest =>
    if startsWithG (trimSpace line) scanSsidKeyword then
      match splitN2 (trimSpace line) with
      | some p =>
        if trimSpace p.2 = target then true else scanLoop target rest
      | none => scanLoop target rest
    else scanLoop target rest

/-- isNetworkAvailable, src/main.go lines 144-220, over the captured run
of netsh wlan show networks. -/
def isNetworkAvailable (target : GoStr) (r : ExecResult) : Except GoError Bool :=
  match r.err with
  | some m =>
    if containsG r.stderr noNetworksZh || containsG r.stderr noNetworksEn then
      Except.ok false
    else Except.error (GoError.cmdFailed m r.stderr)
  | none => Except.ok (scanLoop target (splitOnChar '\n' r.stdout))

/-- A single scan-output line matching the target: the characterization
of one loop step of scanLoop. -/
def scanLineMatches (target line : GoStr) : Bool :=
  startsWithG (trimSpace line) scanSsidKeyword &&
    match splitN2 (trimSpace line) with
    | some p => decide (trimSpace p.2 = target)
    | none => false

/-- Whether a trimmed line opens the block of the given interface in
isConnected (name label plus matching trimmed value). -/
def entersBlock (iface t : GoStr) : Bool :=
  startsWithG t nameLabel &&
    match splitN2 t with
    | some p => decide (trimSpace p.2 = iface)
    | none => false

/-- The raw observable data of one process run under runNetshCommand
(wifi_reconnect_slog.go in src/README.md): captured stdout and stderr,
the error of cmd.Run (none means exit code zero), and whether the
context deadline was exceeded. -/
structure RawRun where
  stdout : GoStr
  stderr : GoStr
  runErr : Option GoStr
  deadlineExceeded : Bool
deriving DecidableEq

/-- commandTimeout of wifi_reconnect_slog.go: 10 * time.Second, in
nanoseconds (a Go Duration counts nanoseconds). -/
def commandTimeout : Nat := 10 * 1000000000

/-- The tri-state outcome of runNetshCommand: success, non-zero-exit
failure (with the attempted arguments, the run error text and the
trimmed stderr the Go message embeds), or timeout-exceeded failure
(with the attempted arguments and the timeout bound). -/
inductive CmdOutcome where
  | ok
  | failed (args : List GoStr) (msg : GoStr) (stderr : GoStr)
  | timedOut (args : List GoStr) (timeoutNs : Nat)
deriving DecidableEq

/-- runNetshCommand of wifi_reconnect_slog.go (src/README.md): the
deadline check comes first, so a timeout is never reported as a generic
failure; stdout and stderr are returned in every case. -/
def runNetshCommand (timeoutNs : Nat) (args : List GoStr) (r : RawRun) :
    GoStr × GoStr × CmdOutcome :=
  if r.deadlineExceeded then (r.stdout, r.stderr, CmdOutcome.timedOut args timeoutNs)
  else
    match r.runErr with
    | some m => (r.stdout, r.stderr, CmdOutcome.failed args m (trimSpace r.stderr))
    | none => (r.stdout, r.stderr, CmdOutcome.ok)

/-- Go fmt %q quoting of an argument (escaping of special characters
inside the value is not modelled). -/
def goQuote (s : GoStr) : GoStr := '"' :: (s ++ ['"'])

/-- The argument list of the connect command built by connectToWifi. -/
def connectArgs (ssid iface : GoStr) : List GoStr :=
  [("wlan").toList, ("connect").toList, ("name=").toList ++ goQuote ssid,
   ("interface=").toList ++ goQuote iface]

/-- connectToWifi of wifi_reconnect_slog.go (src/README.md): issue the
connect command through runNetshCommand with timeout commandTimeout*2;
nil (none) exactly on a clean run, otherwise the wrapped failure.  The
system is modelled as a function from the requested timeout and
arguments to the raw run it produces. -/
def connectToWifi (run : Nat → List GoStr → RawRun) (ssid iface : GoStr) :
    Option CmdOutcome :=
  match (runNetshCommand (commandTimeout * 2) (connectArgs ssid iface)
      (run (commandTimeout * 2) (connectArgs ssid iface))).2.2 with
  | CmdOutcome.ok => none
  | o => some o

/-- The external observations available to one check-and-connect pass:
the status query run, the scan query run, and the behavior of the
system for the connect command. -/
structure PollEnv where
  statusExec : ExecResult
  scanExec : ExecResult
  connectRun : Nat → List GoStr → RawRun

/-- What one check-and-connect pass did (performCheckAndConnect of
wifi_reconnect_slog.go; the same branching appears inline in the tick
body of src/main.go lines 277-299). -/
inductive PollAction where
  | statusError (e : GoError)
  | stayConnected
  | visibilityError (e : GoError)
  | skipNotVisible
  | reconnectAttempt (result : Option CmdOutcome)
deriving DecidableEq

/-- performCheckAndConnect, src/README.md lines 457-487: check status;
on error stop; if connected stop; otherwise check visibility; on error
stop; if visible invoke the Reconnector, else skip. -/
def performCheckAndConnect (target iface : GoStr) (env : PollEnv) : PollAction :=
  match isConnected target iface env.statusExec with
  | Except.error e => PollAction.statusError e
  | Except.ok true => PollAction.stayConnected
  | Except.ok false =>
    match isNetworkAvailable target env.scanExec with
    | Except.error e => PollAction.visibilityError e
    | Except.ok false => PollAction.skipNotVisible
    | Except.ok true => PollAction.reconnectAttempt (connectToWifi env.connectRun target iface)

/-- Whether a pass invoked the Reconnector (reached connectToWifi). -/
def invokesReconnector : PollAction → Bool
  | PollAction.reconnectAttempt _ => true
  | _ => false

/-- What triggered a pass: the immediate startup pass, or the n-th timer
tick. -/
inductive PassTrigger where
  | initial
  | tick (n : Nat)
deriving DecidableEq

/-- The passes performed by main of wifi_reconnect_slog.go
(src/README.md lines 442-453) by the time n ticks have fired: one
immediate pass before any tick, then one pass per tick, all running
performCheckAndConnect.  envs k is the external world seen by the k-th
pass (the initial pass is pass 0, the k-th tick is pass k+1). -/
def mainPasses (target iface : GoStr) (envs : Nat → PollEnv) (n : Nat) :
    List (PassTrigger × PollAction) :=
  (PassTrigger.initial, performCheckAndConnect target iface (envs 0)) ::
    (List.range n).map (fun k => (PassTrigger.tick k, performCheckAndConnect target iface (envs (k + 1))))

/-- A value free of edge whitespace and newlines, as a well-formedness
condition on rendered field values. -/
abbrev cleanVal (v : GoStr) : Prop :=
  v.dropWhile isSpaceChar = v ∧ v.reverse.dropWhile isSpaceChar = v.reverse ∧ '\n' ∉ v

/-- A rendered status block for one interface: its name line, its state
line and its SSID line, in the order netsh prints them. -/
def statusLines (name state ssid : GoStr) : List GoStr :=
  [("名称:").toList ++ name, ("状态:").toList ++ state, ("SSID:").toList ++ ssid]

/-- The rendered status output text of one interface block. -/
def statusStdout (name state ssid : GoStr) : GoStr :=
  joinLines (statusLines name state ssid)

/-- A status output whose interface blocks are labelled only with the
English "Name" label. -/
def englishStatusLines : List GoStr :=
  [("Name : WLAN").toList, ("State : connected").toList, ("SSID : qaz_5G").toList]


theorem splitOnChar_cons (c x : Char) (xs : GoStr) :
    splitOnChar c (x :: xs) =
      match splitOnChar c xs with
      | [] => [[]]
      | h :: t => if x = c then [] :: h :: t else (x :: h) :: t := rfl

theorem splitOnChar_ne_nil (c : Char) (s : GoStr) : splitOnChar c s ≠ [] := by
  cases s with
  | nil => simp [splitOnChar]
  | cons x xs =>
    rw [splitOnChar_cons]
    cases h : splitOnChar c xs with
    | nil => simp
    | cons a t => by_cases hx : x = c <;> simp [hx]

theorem splitOnChar_of_not_mem (c : Char) (s : GoStr) (h : c ∉ s) :
    splitOnChar c s = [s] := by
  induction s with
  | nil => rfl
  | cons x xs ih =>
    have hx : x ≠ c := fun e => h (e ▸ List.mem_cons_self x xs)
    have hxs : c ∉ xs := fun m => h (List.mem_cons_of_mem x m)
    rw [splitOnChar_cons, ih hxs]
    simp [hx]

theorem splitOnChar_append_not_mem (c : Char) (l s : GoStr) (h : c ∉ l) :
    splitOnChar c (l ++ s) =
      (l ++ (splitOnChar c s).headI) :: (splitOnChar c s).tail := by
  induction l with
  | nil =>
    simp
    cases hs : splitOnChar c s with
    | nil => exact absurd hs (splitOnChar_ne_nil c s)
    | cons a t => simp
  | cons x xs ih =>
    have hx : x ≠ c := fun e => h (e ▸ List.mem_cons_self x xs)
    have hxs : c ∉ xs := fun m => h (List.mem_cons_of_mem x m)
    show splitOnChar c (x :: (xs ++ s)) = _
    rw [splitOnChar_cons, ih hxs]
    simp [hx]

theorem splitOnChar_joinLines (ls : List GoStr) (h : ∀ l ∈ ls, '\n' ∉ l)
    (hne : ls ≠ []) : splitOnChar '\n' (joinLines ls) = ls := by
  induction ls with
  | nil => exact absurd rfl hne
  | cons l rest ih =>
    cases rest with
    | nil =>
      have := splitOnChar_of_not_mem '\n' l (h l (List.mem_cons_self l []))
      simpa [joinLines] using this
    | cons l2 rest2 =>
      have hl : '\n' ∉ l := h l (List.mem_cons_self l _)
      have hrest : ∀ x ∈ l2 :: rest2, '\n' ∉ x := fun x hx => h x (List.mem_cons_of_mem l hx)
      have ihr := ih hrest (by simp)
      show splitOnChar '\n' (l ++ '\n' :: joinLines (l2 :: rest2)) = l :: l2 :: rest2
      rw [splitOnChar_append_not_mem '\n' l _ hl]
      have hstep : splitOnChar '\n' ('\n' :: joinLines (l2 :: rest2)) =
          [] :: splitOnChar '\n' (joinLines (l2 :: rest2)) := by
        rw [splitOnChar_cons]
        cases hs : splitOnChar '\n' (joinLines (l2 :: rest2)) with
        | nil => exact absurd hs (splitOnChar_ne_nil _ _)
        | cons a t => simp
      rw [hstep, ihr]
      simp

theorem trimSpace_eq_self (s : GoStr) (h1 : s.dropWhile isSpaceChar = s)
    (h2 : s.reverse.dropWhile isSpaceChar = s.reverse) : trimSpace s = s := by
  unfold trimSpace
  rw [h1, h2, List.reverse_reverse]

theorem dropWhile_append_left (p : Char → Bool) (a b : GoStr)
    (ha : a.dropWhile p = a) (hne : a ≠ []) : (a ++ b).dropWhile p = a ++ b := by
  cases a with
  | nil => exact absurd rfl hne
  | cons c cs =>
    have hc : p c = false := by
      by_cases h : p c = true
      · exfalso
        have heq := ha
        rw [List.dropWhile_cons_of_pos h] at heq
        have hlen := congrArg List.length heq
        have hle := (List.dropWhile_sublist (l := cs) p).length_le
        simp at hlen
        omega
      · simpa using h
    show ((c :: (cs ++ b)).dropWhile p) = _
    rw [List.dropWhile_cons_of_neg (by simp [hc])]
    simp

theorem trimSpace_label (lbl v : GoStr) (h1 : lbl.dropWhile isSpaceChar = lbl)
    (h2 : lbl.reverse.dropWhile isSpaceChar = lbl.reverse) (h3 : lbl ≠ [])
    (hv2 : v.reverse.dropWhile isSpaceChar = v.reverse) :
    trimSpace (lbl ++ v) = lbl ++ v := by
  apply trimSpace_eq_self
  · exact dropWhile_append_left _ _ _ h1 h3
  · rw [List.reverse_append]
    cases hv : v.reverse with
    | nil => simpa [hv] using h2
    | cons a t =>
      rw [← hv]
      exact dropWhile_append_left _ _ _ hv2 (by simp [hv])

theorem startsWithG_append (p rest : GoStr) : startsWithG (p ++ rest) p = true := by
  simp [startsWithG, List.isPrefixOf_iff_prefix]

theorem startsWithG_cons_ne (a b : Char) (s p : GoStr) (h : b ≠ a) :
    startsWithG (a :: s) (b :: p) = false := by
  simp [startsWithG, List.isPrefixOf, h]

theorem splitN2_append_colon : ∀ (pre v : GoStr), ':' ∉ pre →
    splitN2 (pre ++ ':' :: v) = some (pre, v)
  | [], v, _ => by simp [splitN2]
  | c :: cs, v, h => by
    have hc : ¬(c = ':') := fun e => h (e ▸ List.mem_cons_self c cs)
    have ih := splitN2_append_colon cs v (fun m => h (List.mem_cons_of_mem c m))
    show splitN2 (c :: (cs ++ ':' :: v)) = _
    unfold splitN2
    rw [ih]
    simp [hc]

theorem isConnected_okOut (target iface out : GoStr) :
    isConnected target iface (okOut out) =
      Except.ok (isConnLoop target iface ⟨false, [], []⟩ (splitOnChar '\n' out)) := rfl

theorem scanLoop_cons (target l : GoStr) (rest : List GoStr) :
    scanLoop target (l :: rest) =
      (if startsWithG (trimSpace l) scanSsidKeyword then
        match splitN2 (trimSpace l) with
        | some p => if trimSpace p.2 = target then true else scanLoop target rest
        | none => scanLoop target rest
      else scanLoop target rest) := rfl

theorem scanLoop_eq_any (target : GoStr) (ls : List GoStr) :
    scanLoop target ls = ls.any (scanLineMatches target) := by
  induction ls with
  | nil => rfl
  | cons l rest ih =>
    rw [List.any_cons, ← ih, scanLoop_cons]
    by_cases h1 : startsWithG (trimSpace l) scanSsidKeyword
    · rw [if_pos h1]
      cases h2 : splitN2 (trimSpace l) with
      | none => simp [scanLineMatches, h1, h2]
      | some p =>
        by_cases h3 : trimSpace p.2 = target
        · simp [scanLineMatches, h1, h2, h3]
        · simp [scanLineMatches, h1, h2, h3]
    · rw [if_neg h1]
      simp [scanLineMatches, h1]

theorem isConnLoop_no_block (target iface : GoStr) (ls : List GoStr)
    (h : ∀ l ∈ ls, entersBlock iface (trimSpace l) = false) :
    ∀ st : ConnSt, st.inBlock = false → isConnLoop target iface st ls = false := by
  induction ls with
  | nil => intro st _; rfl
  | cons l rest ih =>
    intro st hst
    have hl := h l (List.mem_cons_self l rest)
    have hrest : ∀ x ∈ rest, entersBlock iface (trimSpace x) = false :=
      fun x hx => h x (List.mem_cons_of_mem l hx)
    unfold isConnLoop
    by_cases h1 : startsWithG (trimSpace l) nameLabel
    · rw [if_pos h1]
      apply ih hrest
      unfold nameLineStep
      cases h2 : splitN2 (trimSpace l) with
      | none => exact hst
      | some p =>
        have hv : ¬(trimSpace p.2 = iface) := by
          unfold entersBlock at hl
          rw [h2] at hl
          simp [h1] at hl
          exact hl
        simp [hv, hst]
    · rw [if_neg h1, if_neg (by simp [hst])]
      exact ih hrest st hst

theorem isConnLoop_no_fields (target iface : GoStr) (ht : target ≠ []) (ls : List GoStr)
    (h : ∀ l ∈ ls, startsWithG (trimSpace l) ssidKeyword = false ∧
        startsWithG (trimSpace l) stateKeyword = false) :
    ∀ st : ConnSt, st.pSSID = [] → st.pState = [] →
      isConnLoop target iface st ls = false := by
  induction ls with
  | nil => intro st _ _; rfl
  | cons l rest ih =>
    intro st hs1 hs2
    have hl := h l (List.mem_cons_self l rest)
    have hrest : ∀ x ∈ rest, startsWithG (trimSpace x) ssidKeyword = false ∧
        startsWithG (trimSpace x) stateKeyword = false :=
      fun x hx => h x (List.mem_cons_of_mem l hx)
    unfold isConnLoop
    by_cases h1 : startsWithG (trimSpace l) nameLabel
    · rw [if_pos h1]
      unfold nameLineStep
      cases h2 : splitN2 (trimSpace l) with
      | none => exact ih hrest st hs1 hs2
      | some p =>
        dsimp only
        by_cases h3 : trimSpace p.2 = iface
        · rw [if_pos h3]
          exact ih hrest ⟨true, [], []⟩ rfl rfl
        · rw [if_neg h3]
          exact ih hrest { st with inBlock := false } hs1 hs2
    · rw [if_neg h1]
      by_cases h4 : st.inBlock
      · rw [if_pos h4]
        have hstep : blockLineStep target st (trimSpace l) = (st, none) := by
          unfold blockLineStep
          rw [hl.1, hl.2]
          simp [hs1, hs2, ht, connectedToken]
        rw [hstep]
        exact ih hrest st hs1 hs2
      · rw [if_neg h4]
        exact ih hrest st hs1 hs2

theorem isConnLoop_nil (target iface : GoStr) (st : ConnSt) :
    isConnLoop target iface st [] = false := rfl

theorem isConnLoop_cons (target iface : GoStr) (st : ConnSt) (line : GoStr)
    (rest : List GoStr) :
    isConnLoop target iface st (line :: rest) =
      (if startsWithG (trimSpace line) nameLabel then
        isConnLoop target iface (nameLineStep iface st (trimSpace line)) rest
      else if st.inBlock then
        match blockLineStep target st (trimSpace line) with
        | (_, some r) => r
        | (st2, none) => isConnLoop target iface st2 rest
      else isConnLoop target iface st rest) := rfl

/-- C1: over a status output carrying the block of the requested interface
with definite SSID and state field lines, the Status Parser answers
(true, nil) exactly when the block SSID equals the target and the block
state equals the recognized connected token, and answers (false, nil)
when the SSID matches but the state is populated and different.  The
hypotheses require a nonempty target (enforced by the program
configuration) and field values free of edge whitespace and newlines,
with the rendered SSID line free of the AP BSSID marker. -/
theorem isConnected_block_iff (target name state ssid : GoStr)
    (htarget : target ≠ [])
    (hn : cleanVal name) (hs : cleanVal state) (hd : cleanVal ssid)
    (hm : containsG (("SSID:").toList ++ ssid) apBssidMarker = false) :
    (isConnected target name (okOut (statusStdout name state ssid)) = Except.ok true ↔
      ssid = target ∧ state = connectedToken) ∧
    (ssid = target → state ≠ [] → state ≠ connectedToken →
      isConnected target name (okOut (statusStdout name state ssid)) = Except.ok false) := by
  obtain ⟨hn1, hn2, hn3⟩ := hn
  obtain ⟨hs1, hs2, hs3⟩ := hs
  obtain ⟨hd1, hd2, hd3⟩ := hd
  have hnl1 : '\n' ∉ ("名称:").toList ++ name := by
    intro hmem
    rcases List.mem_append.mp hmem with hmem | hmem
    · revert hmem; decide
    · exact hn3 hmem
  have hnl2 : '\n' ∉ ("状态:").toList ++ state := by
    intro hmem
    rcases List.mem_append.mp hmem with hmem | hmem
    · revert hmem; decide
    · exact hs3 hmem
  have hnl3 : '\n' ∉ ("SSID:").toList ++ ssid := by
    intro hmem
    rcases List.mem_append.mp hmem with hmem | hmem
    · revert hmem; decide
    · exact hd3 hmem
  have hsplit : splitOnChar '\n' (statusStdout name state ssid) =
      statusLines name state ssid := by
    apply splitOnChar_joinLines
    · intro l hl
      simp only [statusLines, List.mem_cons, List.not_mem_nil, or_false] at hl
      rcases hl with h | h | h
      · rw [h]; exact hnl1
      · rw [h]; exact hnl2
      · rw [h]; exact hnl3
    · simp [statusLines]
  have htrimname : trimSpace name = name := trimSpace_eq_self name hn1 hn2
  have htrimstate : trimSpace state = state := trimSpace_eq_self state hs1 hs2
  have htrimssid : trimSpace ssid = ssid := trimSpace_eq_self ssid hd1 hd2
  have ht1 : trimSpace (("名称:").toList ++ name) = ("名称:").toList ++ name :=
    trimSpace_label _ _ (by decide) (by decide) (by decide) hn2
  have ht2 : trimSpace (("状态:").toList ++ state) = ("状态:").toList ++ state :=
    trimSpace_label _ _ (by decide) (by decide) (by decide) hs2
  have ht3 : trimSpace (("SSID:").toList ++ ssid) = ("SSID:").toList ++ ssid :=
    trimSpace_label _ _ (by decide) (by decide) (by decide) hd2
  have hb1 : startsWithG (("名称:").toList ++ name) nameLabel = true :=
    startsWithG_append nameLabel (':' :: name)
  have hb2 : startsWithG (("状态:").toList ++ state) nameLabel = false :=
    startsWithG_cons_ne '状' '名' ('态' :: ':' :: state) ['称'] (by decide)
  have hb3 : startsWithG (("SSID:").toList ++ ssid) nameLabel = false :=
    startsWithG_cons_ne 'S' '名' ('S' :: 'I' :: 'D' :: ':' :: ssid) ['称'] (by decide)
  have hb2s : startsWithG (("状态:").toList ++ state) ssidKeyword = false :=
    startsWithG_cons_ne '状' 'S' ('态' :: ':' :: state) ('S' :: 'I' :: 'D' :: []) (by decide)
  have hb2t : startsWithG (("状态:").toList ++ state) stateKeyword = true :=
    startsWithG_append stateKeyword (':' :: state)
  have hb3s : startsWithG (("SSID:").toList ++ ssid) ssidKeyword = true :=
    startsWithG_append ssidKeyword (':' :: ssid)
  have hb3t : startsWithG (("SSID:").toList ++ ssid) stateKeyword = false :=
    startsWithG_cons_ne 'S' '状' ('S' :: 'I' :: 'D' :: ':' :: ssid) ['态'] (by decide)
  have hsp1 : splitN2 (("名称:").toList ++ name) = some (("名称").toList, name) :=
    splitN2_append_colon (("名称").toList) name (by decide)
  have hsp2 : splitN2 (("状态:").toList ++ state) = some (("状态").toList, state) :=
    splitN2_append_colon (("状态").toList) state (by decide)
  have hsp3 : splitN2 (("SSID:").toList ++ ssid) = some (("SSID").toList, ssid) :=
    splitN2_append_colon (("SSID").toList) ssid (by decide)
  have hne0 : ¬(([] : GoStr) = target) := fun e => htarget e.symm
  have hloop : isConnLoop target name ⟨false, [], []⟩ (statusLines name state ssid) =
      (decide (ssid = target) && decide (state = connectedToken)) := by
    have e0 : statusLines name state ssid =
        (("名称:").toList ++ name) :: (("状态:").toList ++ state) ::
          (("SSID:").toList ++ ssid) :: [] := rfl
    rw [e0, isConnLoop_cons, ht1, hb1, if_pos rfl]
    have e1 : nameLineStep name ⟨false, [], []⟩ (("名称:").toList ++ name) =
        ⟨true, [], []⟩ := by
      unfold nameLineStep
      rw [hsp1]
      dsimp only
      rw [htrimname, if_pos rfl]
    rw [e1, isConnLoop_cons, ht2]
    rw [if_neg (by rw [hb2]; exact Bool.false_ne_true), if_pos rfl]
    have e2 : blockLineStep target ⟨true, [], []⟩ (("状态:").toList ++ state) =
        (⟨true, [], state⟩, none) := by
      unfold blockLineStep
      rw [hb2s, hb2t, hsp2]
      simp [htrimstate, hne0]
    rw [e2]
    dsimp only
    rw [isConnLoop_cons, ht3]
    rw [if_neg (by rw [hb3]; exact Bool.false_ne_true), if_pos rfl]
    have e3 : blockLineStep target ⟨true, [], state⟩ (("SSID:").toList ++ ssid) =
        (⟨true, ssid, state⟩,
          if ssid = target ∧ state = connectedToken then some true
          else if ssid = target ∧ state ≠ [] ∧ state ≠ connectedToken then some false
          else none) := by
      unfold blockLineStep
      rw [hb3s, hm, hb3t, hsp3]
      simp only [Bool.not_false, Bool.and_self, if_true, Bool.false_eq_true, if_false,
        htrimssid]
      split_ifs <;> rfl
    rw [e3]
    by_cases c1 : ssid = target
    · by_cases c2 : state = connectedToken
      · simp [c1, c2]
      · by_cases c3 : state = []
        · simp [c1, c2, c3, isConnLoop_nil, connectedToken]
        · simp [c1, c2, c3]
    · simp [c1, isConnLoop_nil]
  rw [isConnected_okOut, hsplit, hloop]
  constructor
  · constructor
    · intro h
      have : (decide (ssid = target) && decide (state = connectedToken)) = true :=
        Except.ok.inj h
      simpa using this
    · intro h
      simp [h.1, h.2]
  · intro h1 h2 h3
    simp [h1, h3]

/-- Witness for the C1 theorem at a concrete connected status output. -/
theorem isConnected_block_iff_witness :
    isConnected (("qaz_5G").toList) (("WLAN").toList)
      (okOut (statusStdout (("WLAN").toList) (("已连接").toList) (("qaz_5G").toList))) =
      Except.ok true :=
  ((isConnected_block_iff (("qaz_5G").toList) (("WLAN").toList) (("已连接").toList)
      (("qaz_5G").toList) (by decide) (by decide) (by decide) (by decide)
      (by decide)).1).mpr ⟨rfl, rfl⟩

/-- C4: when the status command itself succeeds, the Status Parser never
returns an error: for every output text the result is some ok value;
when no line opens a block of the requested interface the result is
(false, nil); and when the target is nonempty and no line carries an
SSID or state label (so the block fields are never populated) the
result is (false, nil) as well. -/
theorem isConnected_total_on_success (target iface out : GoStr) :
    (∃ b, isConnected target iface (okOut out) = Except.ok b) ∧
    ((∀ l ∈ splitOnChar '\n' out, entersBlock iface (trimSpace l) = false) →
      isConnected target iface (okOut out) = Except.ok false) ∧
    (target ≠ [] →
      (∀ l ∈ splitOnChar '\n' out, startsWithG (trimSpace l) ssidKeyword = false ∧
        startsWithG (trimSpace l) stateKeyword = false) →
      isConnected target iface (okOut out) = Except.ok false) := by
  refine ⟨⟨_, isConnected_okOut target iface out⟩, ?_, ?_⟩
  · intro h
    rw [isConnected_okOut, isConnLoop_no_block target iface _ h _ rfl]
  · intro ht h
    rw [isConnected_okOut, isConnLoop_no_fields target iface ht _ h _ rfl rfl]

/-- Witness for the C4 theorem: a status output with no block for the
requested interface parses to (false, nil), not an error. -/
theorem isConnected_total_on_success_witness :
    isConnected (("qaz_5G").toList) (("WLAN").toList)
      (okOut (("Name : WLAN").toList)) = Except.ok false :=
  (isConnected_total_on_success (("qaz_5G").toList) (("WLAN").toList)
    (("Name : WLAN").toList)).2.1 (by decide)

/-- C10: the Status Parser opens interface blocks only at the Chinese
名称 label, never at the English Name label: on any status output with
no 名称-labelled line it answers (false, nil) for every target, even
though getWlanInterface accepts both label spellings and detects WLAN
on the English-labelled sample output. -/
theorem chinese_only_block_label (target iface out : GoStr)
    (h : ∀ l ∈ splitOnChar '\n' out, startsWithG (trimSpace l) nameLabel = false) :
    isConnected target iface (okOut out) = Except.ok false ∧
    getWlanInterface (okOut (joinLines englishStatusLines)) =
      Except.ok (("WLAN").toList) := by
  constructor
  · have hblock : ∀ l ∈ splitOnChar '\n' out, entersBlock iface (trimSpace l) = false := by
      intro l hl
      unfold entersBlock
      rw [h l hl]
      rfl
    rw [isConnected_okOut, isConnLoop_no_block target iface _ hblock _ rfl]
  · rfl

/-- Witness for the C10 theorem on the English-labelled sample output. -/
theorem chinese_only_block_label_witness :
    isConnected (("qaz_5G").toList) (("WLAN").toList)
      (okOut (joinLines englishStatusLines)) = Except.ok false ∧
    getWlanInterface (okOut (joinLines englishStatusLines)) =
      Except.ok (("WLAN").toList) :=
  chinese_only_block_label (("qaz_5G").toList) (("WLAN").toList)
    (joinLines englishStatusLines) (by decide)

/-- C3 counterexample: a status line that carries the SSID label and
contains the access-point-identifier marker BSSID is nevertheless used
as the SSID source, because the code only excludes the longer marker
AP BSSID: the step records the line value as the block SSID and the
Status Parser reports connected on its strength. -/
theorem bssid_marker_not_excluded_cex :
    containsG (trimSpace (("SSID BSSID : alpha").toList)) (("BSSID").toList) = true ∧
    ((blockLineStep (("alpha").toList) ⟨true, [], []⟩
      (trimSpace (("SSID BSSID : alpha").toList))).1).pSSID = ("alpha").toList ∧
    isConnected (("alpha").toList) (("WLAN").toList)
      (okOut (joinLines [("名称:WLAN").toList, ("状态:已连接").toList,
        ("SSID BSSID : alpha").toList])) = Except.ok true := by
  decide

/-- C3 amended: the marker the Status Parser excludes is exactly the
substring AP BSSID: any block line containing it never changes the
parsed SSID (while lines containing BSSID alone are not excluded, as
the counterexample shows). -/
theorem ap_bssid_line_ignored (target : GoStr) (st : ConnSt) (t : GoStr)
    (h : containsG t apBssidMarker = true) :
    ((blockLineStep target st t).1).pSSID = st.pSSID := by
  unfold blockLineStep
  rw [h]
  simp only [Bool.not_true, Bool.and_false, Bool.false_eq_true, if_false]
  by_cases h2 : startsWithG t stateKeyword
  · rw [if_pos h2]
    cases h3 : splitN2 t with
    | none => split_ifs <;> rfl
    | some p =>
      dsimp only
      split_ifs <;> rfl
  · rw [if_neg h2]
    split_ifs <;> rfl

/-- Witness for the C3 amended theorem: an AP BSSID line leaves the
previously parsed SSID value untouched. -/
theorem ap_bssid_line_ignored_witness :
    ((blockLineStep (("x").toList) ⟨true, ("y").toList, []⟩
      (("SSID AP BSSID : z").toList)).1).pSSID = ("y").toList :=
  ap_bssid_line_ignored (("x").toList) ⟨true, ("y").toList, []⟩
    (("SSID AP BSSID : z").toList) (by decide)

/-- C5: on a failed scan command, captured stderr containing either
recognized no-networks-visible phrasing (Chinese or English) yields the
successful (false, nil) result, while any other failure is returned as
an error. -/
theorem isNetworkAvailable_failure_paths (target : GoStr) (r : ExecResult) (m : GoStr)
    (h : r.err = some m) :
    ((containsG r.stderr noNetworksZh || containsG r.stderr noNetworksEn) = true →
      isNetworkAvailable target r = Except.ok false) ∧
    ((containsG r.stderr noNetworksZh || containsG r.stderr noNetworksEn) = false →
      isNetworkAvailable target r = Except.error (GoError.cmdFailed m r.stderr)) := by
  unfold isNetworkAvailable
  rw [h]
  dsimp only
  constructor
  · intro hc
    rw [if_pos hc]
  · intro hc
    rw [if_neg (by rw [hc]; exact Bool.false_ne_true)]

/-- Witness for the C5 theorem: the English phrasing turns the failure
into (false, nil); an unrecognized stderr stays an error. -/
theorem isNetworkAvailable_failure_paths_witness :
    isNetworkAvailable (("qaz_5G").toList)
      ⟨[], ("No wireless networks are currently visible").toList,
        some (("exit status 1").toList)⟩ = Except.ok false ∧
    isNetworkAvailable (("qaz_5G").toList)
      ⟨[], ("boom").toList, some (("exit status 1").toList)⟩ =
      Except.error (GoError.cmdFailed (("exit status 1").toList) (("boom").toList)) :=
  ⟨(isNetworkAvailable_failure_paths (("qaz_5G").toList) _ _ rfl).1 (by decide),
   (isNetworkAvailable_failure_paths (("qaz_5G").toList) _ _ rfl).2 (by decide)⟩

/-- C9: on a successful scan command the Visibility Scanner answers true
exactly when some output line carries the list-entry SSID label with a
trimmed value equal to the target, and answers false exactly when the
whole output is scanned without such a match. -/
theorem isNetworkAvailable_scan_iff (target : GoStr) (r : ExecResult) (h : r.err = none) :
    (isNetworkAvailable target r = Except.ok true ↔
      ∃ l ∈ splitOnChar '\n' r.stdout, scanLineMatches target l = true) ∧
    (isNetworkAvailable target r = Except.ok false ↔
      ∀ l ∈ splitOnChar '\n' r.stdout, scanLineMatches target l = false) := by
  unfold isNetworkAvailable
  rw [h, scanLoop_eq_any]
  constructor
  · simp [List.any_eq_true]
  · simp [List.any_eq_false]

/-- Witness for the C9 theorem: a scan listing the target answers true. -/
theorem isNetworkAvailable_scan_iff_witness :
    isNetworkAvailable (("qaz_5G").toList)
      (okOut (joinLines [("SSID 1 : qaz_5G").toList, ("SSID 2 : other").toList])) =
      Except.ok true :=
  ((isNetworkAvailable_scan_iff (("qaz_5G").toList) _ rfl).1).mpr (by decide)

/-- C7: runNetshCommand yields exactly one of three distinguishable
outcomes, always together with the captured stdout and stderr text:
success, non-zero-exit failure, or timeout-exceeded failure; the
timeout outcome is a distinct constructor, never conflated with the
generic failure, and the default bound is 10 seconds. -/
theorem runNetshCommand_tri_state (timeoutNs : Nat) (args : List GoStr) (r : RawRun) :
    (runNetshCommand timeoutNs args r).1 = r.stdout ∧
    (runNetshCommand timeoutNs args r).2.1 = r.stderr ∧
    ((runNetshCommand timeoutNs args r).2.2 = CmdOutcome.timedOut args timeoutNs ↔
      r.deadlineExceeded = true) ∧
    ((∃ m, (runNetshCommand timeoutNs args r).2.2 =
        CmdOutcome.failed args m (trimSpace r.stderr)) ↔
      (r.deadlineExceeded = false ∧ r.runErr ≠ none)) ∧
    ((runNetshCommand timeoutNs args r).2.2 = CmdOutcome.ok ↔
      (r.deadlineExceeded = false ∧ r.runErr = none)) ∧
    commandTimeout = 10 * 1000000000 := by
  obtain ⟨so, se, re, dl⟩ := r
  cases dl <;> cases re <;> simp [runNetshCommand, commandTimeout]

/-- C8: the Reconnector issues the connect command with the doubled
default timeout and returns nil exactly when the command run observed
at that timeout and those arguments finishes without error within the
bound; no part of the produced output text affects success. -/
theorem connectToWifi_extended_timeout (run : Nat → List GoStr → RawRun)
    (ssid iface : GoStr) :
    (connectToWifi run ssid iface = none ↔
      ((run (commandTimeout * 2) (connectArgs ssid iface)).deadlineExceeded = false ∧
        (run (commandTimeout * 2) (connectArgs ssid iface)).runErr = none)) ∧
    commandTimeout * 2 = 20 * 1000000000 := by
  constructor
  · unfold connectToWifi runNetshCommand
    cases hdl : (run (commandTimeout * 2) (connectArgs ssid iface)).deadlineExceeded <;>
      cases hre : (run (commandTimeout * 2) (connectArgs ssid iface)).runErr <;>
        simp [hdl, hre]
  · rfl

/-- C2: within one check-and-connect pass, the Reconnector is invoked
exactly when the status check of the pass answered not-connected
without error and the visibility check answered visible without error;
in particular it is never invoked on a pass whose status check reported
connected. -/
theorem reconnector_iff_disconnected_and_visible (target iface : GoStr) (env : PollEnv) :
    (invokesReconnector (performCheckAndConnect target iface env) = true ↔
      (isConnected target iface env.statusExec = Except.ok false ∧
        isNetworkAvailable target env.scanExec = Except.ok true)) ∧
    (isConnected target iface env.statusExec = Except.ok true →
      invokesReconnector (performCheckAndConnect target iface env) = false) := by
  unfold performCheckAndConnect
  cases hs : isConnected target iface env.statusExec with
  | error e => simp [invokesReconnector]
  | ok b =>
    cases b with
    | true => simp [invokesReconnector]
    | false =>
      cases hv : isNetworkAvailable target env.scanExec with
      | error e => simp [invokesReconnector]
      | ok vb => cases vb <;> simp [invokesReconnector]

/-- Witness for the C2 theorem: a pass whose status check reports
connected does not invoke the Reconnector. -/
theorem reconnector_iff_disconnected_and_visible_witness :
    invokesReconnector (performCheckAndConnect (("qaz_5G").toList) (("WLAN").toList)
      ⟨okOut (statusStdout (("WLAN").toList) (("已连接").toList) (("qaz_5G").toList)),
        okOut [], fun _ _ => ⟨[], [], none, false⟩⟩) = false :=
  (reconnector_iff_disconnected_and_visible (("qaz_5G").toList) (("WLAN").toList)
    ⟨okOut (statusStdout (("WLAN").toList) (("已连接").toList) (("qaz_5G").toList)),
      okOut [], fun _ _ => ⟨[], [], none, false⟩⟩).2 (by decide)

/-- C6: main of the slog variant performs one immediate
check-and-connect pass before any tick fires, and then performs the
same performCheckAndConnect pass once per tick of the fixed-period
ticker: after n ticks the pass list starts with the initial pass, has
length n+1, and its (k+1)-st element is the pass of the k-th tick. -/
theorem initial_pass_before_ticks (target iface : GoStr) (envs : Nat → PollEnv) (n : Nat) :
    (mainPasses target iface envs n).head? =
      some (PassTrigger.initial, performCheckAndConnect target iface (envs 0)) ∧
    (mainPasses target iface envs n).length = n + 1 ∧
    (∀ k, k < n → (mainPasses target iface envs n)[k + 1]? =
      some (PassTrigger.tick k, performCheckAndConnect target iface (envs (k + 1)))) := by
  refine ⟨rfl, by simp [mainPasses], ?_⟩
  intro k hk
  simp [mainPasses, List.getElem?_map, List.getElem?_range, hk]

/-- Witness for the C6 theorem: with two ticks fired, the element after
the initial pass is the pass of tick 0. -/
theorem initial_pass_before_ticks_witness :
    (mainPasses (("qaz_5G").toList) (("WLAN").toList)
      (fun _ => ⟨okOut [], okOut [], fun _ _ => ⟨[], [], none, false⟩⟩) 2)[0 + 1]? =
      some (PassTrigger.tick 0,
        performCheckAndConnect (("qaz_5G").toList) (("WLAN").toList)
          ⟨okOut [], okOut [], fun _ _ => ⟨[], [], none, false⟩⟩) :=
  (initial_pass_before_ticks (("qaz_5G").toList) (("WLAN").toList)
    (fun _ => ⟨okOut [], okOut [], fun _ _ => ⟨[], [], none, false⟩⟩) 2).2.2 0
    (by decide)

end ReconnectWifi
